import Mathlib

/-!
Verification of the `gptt` timetable core (`gptt/timetables.py`) against its
specification.  The Python source is shallowly embedded below: the upstream
HTTP collaborators (Directions, Geocoding, Time Zone APIs) are modelled as
opaque request/response functions passed in as parameters, exceptions are
modelled with explicit result types, and the unbounded `while True` loop of
`get_transit_plans_for_day` is modelled with an explicit fuel parameter
(the Python loop is not guaranteed to terminate for an arbitrary collaborator,
so fuel exhaustion is a distinct outcome).
-/

set_option maxHeartbeats 1000000

/-- One vehicle-boarding segment of an itinerary, mirroring the `step_data`
dict built in `get_transit_plan_for_timestamp` (timetables.py lines 195-225).
The two locality fields start absent and are filled in by the locality
annotation phase (lines 416-419), which in Python mutates the dict in place;
here they are `Option` fields defaulting to `none`. -/
structure Step where
  departure_stop : String
  departure_location : String
  departure_time : String
  departure_time_epoch : Int
  arrival_stop : String
  arrival_location : String
  arrival_time : String
  arrival_time_epoch : Int
  vehicle : String
  vehicle_type : String
  headsign : String
  line_short_name : Option String
  line_name : Option String
  departure_locality : Option String := none
  arrival_locality : Option String := none
deriving DecidableEq

/-- A stop as it appears in the raw Directions API response
(`transit_details.departure_stop` / `arrival_stop`): a name and a coordinate
pair.  Python stringifies the float coordinates with `str(...)`; floats are
not modelled, so the already-stringified coordinates are carried as strings. -/
structure RawStop where
  name : String
  lat : String
  lng : String
deriving DecidableEq

/-- One element of `routes[0].legs[0].steps` in the raw Directions API
response, restricted to the fields the code reads. -/
structure RawStep where
  travel_mode : String
  departure_stop : RawStop
  departure_time_text : String
  departure_time_value : Int
  arrival_stop : RawStop
  arrival_time_text : String
  arrival_time_value : Int
  vehicle_name : String
  vehicle_type : String
  headsign : String
  line_short_name : Option String
  line_name : Option String
deriving DecidableEq

/-- A raw Directions API response, restricted to the fields the code reads:
`status`, the optional `available_travel_modes` list, the optional
`error_message`, and the steps of the single returned route's single leg. -/
structure RawResponse where
  status : String
  available_travel_modes : Option (List String)
  error_message : Option String
  steps : List RawStep
deriving DecidableEq

/-- Result of one `get_transit_plan_for_timestamp` call.  Python raises
`DirectionsAPINoTransitDirectionsError` (carrying the status) or
`DirectionsAPIGenericError` (carrying status and error message); a normal
return is the list of processed steps. -/
inductive FetchResult where
  | ok (steps : List Step)
  | errNoTransit (status : String)
  | errGeneric (status : String) (msg : String)
deriving DecidableEq

/-- Association-list lookup, modelling Python `dict.get(key)`:
`lookupTbl tbl k` is the value stored under `k`, if any. -/
def lookupTbl (tbl : List (String × String)) (k : String) : Option String :=
  (tbl.find? (fun p => p.1 == k)).map Prod.snd

/-- Python `str.replace` on explicit character lists: replace every
non-overlapping occurrence of `pat` by `rep`, scanning left to right.  The
`fuel` argument is initialised to the length of the subject string; each
recursive call consumes at least one character and exactly one unit of fuel,
so the fuel never runs out when initialised that way.  An empty pattern is a
no-op (the Python code only ever passes non-empty patterns). -/
def replaceChars (pat rep : List Char) : Nat → List Char → List Char
  | 0, s => s
  | _ + 1, [] => []
  | fuel + 1, c :: rest =>
    if pat ≠ [] ∧ pat.isPrefixOf (c :: rest) then
      rep ++ replaceChars pat rep fuel (List.drop (pat.length - 1) rest)
    else
      c :: replaceChars pat rep fuel rest

/-- Python `str.replace(pat, rep)` replacing all occurrences. -/
def strReplace (s pat rep : String) : String :=
  (replaceChars pat.toList rep.toList s.toList.length s.toList).asString

/-- The station-name replacement loop of timetables.py lines 201-202 /
212-213: `for r in station_name_replacements: name = name.replace(*r)` —
each replacement applied in the supplied order, the output of one feeding
into the next. -/
def applyReplacements (reps : List (String × String)) (name : String) : String :=
  reps.foldl (fun acc r => strReplace acc r.1 r.2) name

/-- Processing of one non-walking step (timetables.py lines 190-228):
extract the fields, apply station-name replacements to both stop names,
build the `lat,lng` coordinate keys and map the vehicle type through the
`vehicle_type_names` dict, falling back on the raw upstream value. -/
def processStep (vehicle_type_names reps : List (String × String)) (s : RawStep) : Step :=
  { departure_stop := applyReplacements reps s.departure_stop.name
    departure_location := s.departure_stop.lat ++ "," ++ s.departure_stop.lng
    departure_time := s.departure_time_text
    departure_time_epoch := s.departure_time_value
    arrival_stop := applyReplacements reps s.arrival_stop.name
    arrival_location := s.arrival_stop.lat ++ "," ++ s.arrival_stop.lng
    arrival_time := s.arrival_time_text
    arrival_time_epoch := s.arrival_time_value
    vehicle := s.vehicle_name
    vehicle_type := (lookupTbl vehicle_type_names s.vehicle_type).getD s.vehicle_type
    headsign := s.headsign
    line_short_name := s.line_short_name
    line_name := s.line_name }

/-- Python `timetable_data.get('available_travel_modes', 'TRANSIT')`
(timetables.py line 166).  When the field is absent the default is the
string `'TRANSIT'`, and `'TRANSIT' not in 'TRANSIT'` is substring search,
which is false; so an absent field behaves exactly like a mode list that
does contain TRANSIT.  That is modelled by returning `["TRANSIT"]`. -/
def availableModes : Option (List String) → List String
  | none => ["TRANSIT"]
  | some l => l

/-- `get_transit_plan_for_timestamp` (timetables.py lines 109-231) applied to
an already-received raw response: classify non-OK statuses into the transient
no-transit-directions error versus the generic fatal error (lines 160-169),
otherwise drop walking segments (line 183) and process the remaining steps. -/
def get_transit_plan_for_timestamp (vehicle_type_names reps : List (String × String))
    (resp : RawResponse) : FetchResult :=
  if resp.status ≠ "OK" then
    if "TRANSIT" ∉ availableModes resp.available_travel_modes then
      .errNoTransit resp.status
    else
      .errGeneric resp.status (resp.error_message.getD "")
  else
    .ok ((resp.steps.filter (fun s => s.travel_mode != "WALKING")).map
      (processStep vehicle_type_names reps))

/-- How one run of the enumeration loop of `get_transit_plans_for_day` ended. -/
inductive RunStatus where
  | finished
  | noDirections
  | fatalApi
  | emptyItinerary
  | outOfFuel
deriving DecidableEq

/-- Observable outcome of the enumeration loop: final status, accumulated
`full_transit_results`, final `total_times_error_encountered`, and the list
of departure-time timestamps passed to the per-timestamp query, in order. -/
structure RunResult where
  status : RunStatus
  results : List (List Step)
  totalErr : Nat
  queries : List Int
deriving DecidableEq

/-- The `while True` loop of `get_transit_plans_for_day`
(timetables.py lines 309-374), with the per-timestamp call abstracted into
`query : Int → FetchResult` and the loop bounded by `fuel`.  Per iteration:
the cursor is advanced by one second and queried (line 312); on success the
consecutive-failure counter resets and the cursor becomes the first step's
departure epoch (lines 326, 359); on the transient no-transit error the
cursor jumps by `300 * (failed + 1)` seconds, the cumulative counter is
incremented only at the start of a failure streak, and the consecutive
counter is incremented (lines 333-342); the loop stops whenever
`cursor + 1 > end_of_day` (lines 344-347, 361-373), appending the fetched
itinerary only when the loop continues (line 374).  An empty result list on
success would make `transit_results[0]` raise in Python, modelled by
`emptyItinerary`; a generic API error propagates as `fatalApi`. -/
def runLoop (query : Int → FetchResult) (end_of_day : Int) :
    Nat → Int → Nat → Nat → List (List Step) → RunResult
  | 0, _, _, te, acc => ⟨.outOfFuel, acc, te, []⟩
  | fuel + 1, cursor, failed, te, acc =>
    match query (cursor + 1) with
    | .errGeneric _ _ => ⟨.fatalApi, acc, te, [cursor + 1]⟩
    | .errNoTransit _ =>
      if cursor + 1 + 300 * ((failed : Int) + 1) + 1 > end_of_day then
        if acc = [] then
          ⟨.noDirections, acc, (if failed = 0 then te + 1 else te), [cursor + 1]⟩
        else
          ⟨.finished, acc, (if failed = 0 then te + 1 else te), [cursor + 1]⟩
      else
        (fun r => ⟨r.status, r.results, r.totalErr, (cursor + 1) :: r.queries⟩)
          (runLoop query end_of_day fuel (cursor + 1 + 300 * ((failed : Int) + 1))
            (failed + 1) (if failed = 0 then te + 1 else te) acc)
    | .ok steps =>
      match steps.head? with
      | none => ⟨.emptyItinerary, acc, te, [cursor + 1]⟩
      | some s0 =>
        if s0.departure_time_epoch + 1 > end_of_day then
          if acc = [] then
            ⟨.noDirections, acc, te, [cursor + 1]⟩
          else
            ⟨.finished, acc, te, [cursor + 1]⟩
        else
          (fun r => ⟨r.status, r.results, r.totalErr, (cursor + 1) :: r.queries⟩)
            (runLoop query end_of_day fuel s0.departure_time_epoch 0 te (acc ++ [steps]))

/-- A calendar date, the parsed form of the YYYY-MM-DD string handed to
`datetime.strptime` at timetables.py line 281. -/
structure CivilDate where
  year : Int
  month : Nat
  day : Nat
deriving DecidableEq

/-- Gregorian leap-year test, as in CPython's `datetime` module. -/
def isLeapYear (y : Int) : Bool :=
  y % 4 == 0 && (y % 100 != 0 || y % 400 == 0)

/-- Number of days in all years strictly before year `y` in the proleptic
Gregorian calendar (CPython `_days_before_year`). -/
def daysBeforeYear (y : Int) : Int :=
  365 * (y - 1) + (y - 1) / 4 - (y - 1) / 100 + (y - 1) / 400

/-- Number of days in year `y` strictly before month `m`
(CPython `_days_before_month`). -/
def daysBeforeMonth (y : Int) (m : Nat) : Int :=
  ([0, 31, 59, 90, 120, 151, 181, 212, 243, 273, 304, 334] : List Int).getD (m - 1) 0
    + (if 2 < m && isLeapYear y then 1 else 0)

/-- Proleptic-Gregorian ordinal of a date, with January 1 of year 1 as day 1
(CPython `date.toordinal`). -/
def toOrdinal (d : CivilDate) : Int :=
  daysBeforeYear d.year + daysBeforeMonth d.year d.month + (d.day : Int)

/-- Epoch seconds of UTC midnight of a date: timetables.py lines 281-282
parse `date` as a naive UTC midnight and subtract `datetime(1970, 1, 1)`.
The ordinal of 1970-01-01 is 719163. -/
def utcMidnightEpoch (d : CivilDate) : Int :=
  86400 * (toOrdinal d - 719163)

/-- The local-day window of timetables.py lines 280-289: the UTC-midnight
baseline minus the offset returned by the time-offset collaborator gives
`start_of_day`, and `end_of_day` is `24 * 60 * 60` seconds later. -/
def dayWindow (d : CivilDate) (offset : Int) : Int × Int :=
  (utcMidnightEpoch d - offset, utcMidnightEpoch d - offset + 24 * 60 * 60)

/-- One entry of `address_components` in a reverse-geocoding result,
restricted to the fields the code reads. -/
structure GeoComponent where
  long_name : String
  types : List String
deriving DecidableEq

/-- A reverse-geocoding response: a status and, for each element of the
`results` array, its `address_components` list. -/
structure GeoResponse where
  status : String
  results : List (List GeoComponent)
deriving DecidableEq

/-- Failure modes of `get_transit_plans_for_day`, one per distinct Python
exception path: `ValueError('No directions were found.')`,
`NoEligibleRoutesError`, a propagated `DirectionsAPIGenericError`, a
propagated `GeocodingAPIError` from the locality lookup, an index/key error
on missing data, and fuel exhaustion of the loop model. -/
inductive DayError where
  | noDirectionsFound
  | noEligibleRoutes
  | directionsApi
  | geocoding
  | dataMissing
  | outOfFuel
deriving DecidableEq

/-- Does an address component carry the `locality` or the `postal_town` tag
(timetables.py lines 409-410)? -/
def matchesLocalityTag (c : GeoComponent) : Bool :=
  c.types.contains "locality" || c.types.contains "postal_town"

/-- The locality-name extraction of timetables.py lines 409-410:
`[x['long_name'] for x in components if 'locality' in x['types'] or
'postal_town' in x['types']][0]` — the long name of the first component
carrying either tag, `none` when no component matches (Python would raise
IndexError). -/
def extractLocality (comps : List GeoComponent) : Option String :=
  ((comps.filter matchesLocalityTag).map GeoComponent.long_name).head?

/-- One reverse-geocoding lookup of timetables.py lines 399-411: a non-OK
status raises `GeocodingAPIError`; an empty `results` array or no matching
address component raises an index error; otherwise the extracted name. -/
def lookupLocality (geocode : String → GeoResponse) (loc : String) :
    Except DayError String :=
  if (geocode loc).status ≠ "OK" then
    .error .geocoding
  else
    match (geocode loc).results.head? with
    | none => .error .dataMissing
    | some comps =>
      match extractLocality comps with
      | none => .error .dataMissing
      | some name => .ok name

/-- The deduplicated location list of timetables.py lines 387-388:
`list(set(arrival locations + departure locations))`.  Python's `set` fixes
no particular order; `List.dedup` likewise yields each distinct coordinate
key exactly once. -/
def collectLocations (its : List (List Step)) : List String :=
  ((its.flatMap (fun x => x.map Step.arrival_location))
    ++ (its.flatMap (fun x => x.map Step.departure_location))).dedup

/-- The `location_lookup` dict built by the loop at timetables.py
lines 394-411: one reverse-geocoding lookup per collected location, aborting
on the first failure. -/
def buildLookup (geocode : String → GeoResponse) :
    List String → Except DayError (List (String × String))
  | [] => .ok []
  | loc :: rest =>
    match lookupLocality geocode loc with
    | .error e => .error e
    | .ok name =>
      match buildLookup geocode rest with
      | .error e => .error e
      | .ok tbl => .ok ((loc, name) :: tbl)

/-- The in-place mutation of timetables.py lines 416-419: attach the
looked-up locality names for a step's departure and arrival coordinates. -/
def annotateStep (tbl : List (String × String)) (s : Step) : Step :=
  { s with
    departure_locality := lookupTbl tbl s.departure_location
    arrival_locality := lookupTbl tbl s.arrival_location }

/-- The whole locality-annotation phase of timetables.py lines 383-419. -/
def annotateLocalities (geocode : String → GeoResponse)
    (its : List (List Step)) : Except DayError (List (List Step)) :=
  match buildLookup geocode (collectLocations its) with
  | .error e => .error e
  | .ok tbl => .ok (its.map (fun x => x.map (annotateStep tbl)))

/-- The transfer filter of timetables.py line 376:
`[x for x in full_transit_results if len(x) <= max_transfers + 1]`. -/
def transferFilter (max_transfers : Int) (its : List (List Step)) : List (List Step) :=
  its.filter (fun x => decide ((x.length : Int) ≤ max_transfers + 1))

/-- `get_transit_plans_for_day` (timetables.py lines 233-421) with the
network collaborators abstracted: `query` stands for one
`get_transit_plan_for_timestamp` call at a departure timestamp, `geocode`
for one reverse-geocoding request, and `offset` for the value returned by
`get_location_time_offset`.  The day window is resolved (lines 280-289),
the enumeration loop is run from `start_of_day` with both failure counters
at zero (lines 292-374), the results are filtered by transfer count and
`NoEligibleRoutesError` is raised when nothing survives (lines 376-381),
and locality annotation runs only when requested (lines 383-419). -/
def get_transit_plans_for_day (query : Int → FetchResult)
    (geocode : String → GeoResponse) (offset : Int) (date : CivilDate)
    (max_transfers : Int) (get_station_localities : Bool) (fuel : Nat) :
    Except DayError (List (List Step)) :=
  match (runLoop query (dayWindow date offset).2 fuel (dayWindow date offset).1 0 0 []).status,
    (runLoop query (dayWindow date offset).2 fuel (dayWindow date offset).1 0 0 []).results with
  | .outOfFuel, _ => .error .outOfFuel
  | .fatalApi, _ => .error .directionsApi
  | .emptyItinerary, _ => .error .dataMissing
  | .noDirections, _ => .error .noDirectionsFound
  | .finished, results =>
    if transferFilter max_transfers results = [] then
      .error .noEligibleRoutes
    else if get_station_localities then
      annotateLocalities geocode (transferFilter max_transfers results)
    else
      .ok (transferFilter max_transfers results)

/-- First-step departure epoch of an itinerary
(`transit_results[0]['departure_time_epoch']`, timetables.py line 359);
zero for the empty list, which never occurs for real itineraries. -/
def firstDep (it : List Step) : Int :=
  match it.head? with
  | some s => s.departure_time_epoch
  | none => 0

/-- Departing strictly inside the open window `(lo, hi)`. -/
def inWindow (lo hi : Int) (it : List Step) : Bool :=
  decide (lo < firstDep it) && decide (firstDep it < hi)

/-- The mocked upstream next-itinerary collaborator of the specification:
backed by a timetable `its` of itineraries, a query at timestamp `t` returns
the first listed itinerary whose first-step departure epoch is at or after
`t` (for a sorted timetable, the earliest such), and reports the transient
no-transit error when the timetable has none. -/
def mockQuery (its : List (List Step)) (t : Int) : FetchResult :=
  match its.find? (fun it => decide (t ≤ firstDep it)) with
  | some it => .ok it
  | none => .errNoTransit "ZERO_RESULTS"

/-- Is a per-timestamp query result the transient no-transit failure? -/
def isNoTransit : FetchResult → Bool
  | .errNoTransit _ => true
  | _ => false

/-- Count the maximal blocks of consecutive transient no-transit failures in
a sequence of query results; `inStreak` records whether the immediately
preceding result was such a failure. -/
def countStreaksFrom (inStreak : Bool) : List FetchResult → Nat
  | [] => 0
  | r :: rest =>
    if isNoTransit r then
      (if inStreak then 0 else 1) + countStreaksFrom true rest
    else
      countStreaksFrom false rest

/-- Number of maximal streaks of consecutive transient failures in a run's
query results. -/
def countStreaks (l : List FetchResult) : Nat :=
  countStreaksFrom false l

/-- A coordinate key occurs in the itinerary list as some step's departure
or arrival location. -/
def mentionsLocation (its : List (List Step)) (loc : String) : Prop :=
  ∃ it ∈ its, ∃ s ∈ it, s.arrival_location = loc ∨ s.departure_location = loc

/-- A concrete sample step departing at epoch `dep`, for witnesses. -/
def mkStep (dep : Int) : Step :=
  { departure_stop := "A"
    departure_location := "1.0,1.0"
    departure_time := "08:00"
    departure_time_epoch := dep
    arrival_stop := "B"
    arrival_location := "2.0,2.0"
    arrival_time := "09:00"
    arrival_time_epoch := dep + 3600
    vehicle := "Train"
    vehicle_type := "HEAVY_RAIL"
    headsign := "B"
    line_short_name := none
    line_name := none }

/-- A concrete mocked timetable: two itineraries inside the day window of a
day starting at epoch 0, plus a next-day itinerary. -/
def its1 : List (List Step) := [[mkStep 100], [mkStep 200], [mkStep 90000]]

/-- A concrete upstream that reports the transient no-transit failure for
every timestamp before 700 and afterwards returns a next-day itinerary. -/
def c2q : Int → FetchResult := fun t =>
  if t < 700 then .errNoTransit "ZERO_RESULTS" else .ok [mkStep 90000]

/-- A concrete upstream returning an in-window itinerary for early
timestamps and a next-day itinerary afterwards. -/
def c10q : Int → FetchResult := fun t =>
  if t ≤ 100 then .ok [mkStep 100] else .ok [mkStep 90000]

/-- A concrete reverse-geocoder whose first matching address component is
tagged `postal_town` while a later one is tagged `locality`. -/
def geoPT : String → GeoResponse := fun _ =>
  ⟨"OK", [[⟨"Postalville", ["postal_town"]⟩, ⟨"Localville", ["locality"]⟩]]⟩

/-- A concrete reverse-geocoder with a single locality-tagged component. -/
def geoOK : String → GeoResponse := fun _ => ⟨"OK", [[⟨"Town", ["locality"]⟩]]⟩

/-- Every iteration of the loop with fuel left first queries at one second
past the cursor, whatever happens afterwards (timetables.py line 312). -/
theorem runLoop_queries_head (query : Int → FetchResult) (e : Int) (fuel : Nat)
    (c : Int) (failed te : Nat) (acc : List (List Step)) :
    ∃ rest, (runLoop query e (fuel + 1) c failed te acc).queries = (c + 1) :: rest := by
  rw [runLoop]
  cases hq : query (c + 1) with
  | errGeneric s m => simp
  | errNoTransit s =>
    by_cases hend : c + 1 + 300 * ((failed : Int) + 1) + 1 > e
    · simp only [if_pos hend]
      by_cases hacc : acc = [] <;> simp [hacc]
    · simp only [if_neg hend]
      exact ⟨_, rfl⟩
  | ok steps =>
    cases hh : steps.head? with
    | none => simp [hh]
    | some s0 =>
      simp only [hh]
      by_cases hend : s0.departure_time_epoch + 1 > e
      · simp only [if_pos hend]
        by_cases hacc : acc = [] <;> simp [hacc]
      · simp only [if_neg hend]
        exact ⟨_, rfl⟩

/-- Claim C2: when the query at cursor timestamp `c + 1` fails with the
transient no-transit signal while the consecutive-failure count is `failed`,
and the day window is not yet exhausted after the backoff jump, the next
query is issued at timestamp `(c + 1) + 1 + 300 * (failed + 1)`: the failed
attempt's timestamp advanced by one second plus the 300-second backoff
scaled by the streak length (timetables.py lines 312, 333-334, 351). -/
theorem c2_retry_backoff (query : Int → FetchResult) (e : Int) (fuel : Nat)
    (c : Int) (failed te : Nat) (acc : List (List Step)) (st : String)
    (hq : query (c + 1) = .errNoTransit st)
    (hcont : c + 1 + 300 * ((failed : Int) + 1) + 1 ≤ e) :
    (runLoop query e (fuel + 2) c failed te acc).queries.take 2
      = [c + 1, c + 1 + 1 + 300 * ((failed : Int) + 1)] := by
  have h2 : fuel + 2 = (fuel + 1) + 1 := rfl
  rw [h2, runLoop, hq]
  have hnot : ¬ (c + 1 + 300 * ((failed : Int) + 1) + 1 > e) := by omega
  simp only [if_neg hnot]
  obtain ⟨rest, hrest⟩ := runLoop_queries_head query e fuel
    (c + 1 + 300 * ((failed : Int) + 1)) (failed + 1) (if failed = 0 then te + 1 else te) acc
  simp only [hrest]
  simp [List.take]
  omega

/-- Witness for C2, realising the claim's two-consecutive-failures scenario
against the concrete collaborator `c2q`: the first failed attempt at
timestamp 1 (streak length 0) makes the loop query next at 1 + 1 + 300,
and the second failed attempt at timestamp 302 (streak length 1) makes it
query next at 302 + 1 + 600. -/
theorem c2_retry_backoff_witness :
    (runLoop c2q 86400 7 0 0 0 []).queries.take 2 = [1, 302]
    ∧ (runLoop c2q 86400 7 301 1 0 []).queries.take 2 = [302, 903] := by
  constructor
  · have h := c2_retry_backoff c2q 86400 5 0 0 0 [] "ZERO_RESULTS" (by decide) (by decide)
    simpa using h
  · have h := c2_retry_backoff c2q 86400 5 301 1 0 [] "ZERO_RESULTS" (by decide) (by decide)
    simpa using h

/-- Claim C4: the local-day window resolver computes `start_epoch` as the
epoch of UTC midnight of the date minus the collaborator's offset, and
`end_epoch` as `start_epoch + 86400`, so the window is always exactly 86400
seconds long (timetables.py lines 280-289). -/
theorem c4_day_window (d : CivilDate) (offset : Int) :
    (dayWindow d offset).1 = utcMidnightEpoch d - offset
    ∧ (dayWindow d offset).2 = (dayWindow d offset).1 + 86400
    ∧ (dayWindow d offset).2 - (dayWindow d offset).1 = 86400 := by
  refine ⟨rfl, ?_, ?_⟩ <;> (simp only [dayWindow]; omega)

/-- Claim C7: the transfer filter keeps exactly the itineraries whose step
count is at most `max_transfers + 1`, preserving relative order (it yields a
sublist of the input), and on step counts 1, 3, 5 with `max_transfers = 1`
only the single-step itinerary survives (timetables.py line 376). -/
theorem c7_transfer_filter (max_transfers : Int) (its : List (List Step)) :
    (transferFilter max_transfers its).Sublist its
    ∧ (∀ x, x ∈ transferFilter max_transfers its
        ↔ x ∈ its ∧ (x.length : Int) ≤ max_transfers + 1)
    ∧ transferFilter 1 [[mkStep 100],
        [mkStep 200, mkStep 300, mkStep 400],
        [mkStep 500, mkStep 600, mkStep 700, mkStep 800, mkStep 900]]
      = [[mkStep 100]] := by
  refine ⟨List.filter_sublist its, ?_, by decide⟩
  intro x
  simp [transferFilter, List.mem_filter]

/-- Claim C9: station-name normalization folds the replacement list in the
supplied order, the output of each replacement feeding the next, each
replacement replacing all occurrences; in particular the list
Hauptbahnhof-to-Hbf then Bahnhof-to-Bf sends "Frankfurt Hauptbahnhof" to
"Frankfurt Hbf", and a name containing both substrings is fully transformed
in one pass (timetables.py lines 201-202, 212-213). -/
theorem c9_station_name_replacements (r : String × String)
    (reps : List (String × String)) (name : String) :
    applyReplacements [] name = name
    ∧ applyReplacements (r :: reps) name = applyReplacements reps (strReplace name r.1 r.2)
    ∧ strReplace "Bahnhofstrasse am Bahnhof" "Bahnhof" "Bf" = "Bfstrasse am Bf"
    ∧ applyReplacements [("Hauptbahnhof", "Hbf"), ("Bahnhof", "Bf")]
        "Frankfurt Hauptbahnhof" = "Frankfurt Hbf"
    ∧ applyReplacements [("Hauptbahnhof", "Hbf"), ("Bahnhof", "Bf")]
        "Wien Hauptbahnhof und Nord Bahnhof" = "Wien Hbf und Nord Bf" :=
  ⟨rfl, rfl, by decide, by decide, by decide⟩

/-- Claim C6: `get_transit_plan_for_timestamp` raises the transient
no-transit-directions error exactly when the response status is non-OK and
`available_travel_modes` is present without TRANSIT in it; every other
non-OK response, including one with no `available_travel_modes` field,
raises the generic fatal directions-API error carrying the status and the
(possibly defaulted) error message (timetables.py lines 160-169). -/
theorem c6_error_classification (vt reps : List (String × String)) (resp : RawResponse) :
    (get_transit_plan_for_timestamp vt reps resp = .errNoTransit resp.status
      ↔ resp.status ≠ "OK"
        ∧ ∃ modes, resp.available_travel_modes = some modes ∧ "TRANSIT" ∉ modes)
    ∧ (resp.status ≠ "OK" →
        ¬ (∃ modes, resp.available_travel_modes = some modes ∧ "TRANSIT" ∉ modes) →
        get_transit_plan_for_timestamp vt reps resp
          = .errGeneric resp.status (resp.error_message.getD "")) := by
  by_cases hs : resp.status = "OK"
  · constructor
    · simp [get_transit_plan_for_timestamp, hs]
    · intro h
      exact absurd hs h
  · cases hm : resp.available_travel_modes with
    | none =>
      constructor
      · simp [get_transit_plan_for_timestamp, hs, hm, availableModes]
      · intro _ _
        simp [get_transit_plan_for_timestamp, hs, hm, availableModes]
    | some modes =>
      by_cases ht : "TRANSIT" ∈ modes
      · constructor
        · simp only [get_transit_plan_for_timestamp, hs, hm, availableModes]
          simp [ht, hs]
        · intro _ _
          simp only [get_transit_plan_for_timestamp, hs, hm, availableModes]
          simp [ht, hs]
      · constructor
        · simp only [get_transit_plan_for_timestamp, hs, hm, availableModes]
          simp [ht, hs]
        · intro _ hcontra
          exact absurd ⟨modes, rfl, ht⟩ hcontra

/-- Witness for C6 at concrete inputs: a ZERO_RESULTS response advertising
only DRIVING is classified as the transient no-transit error. -/
theorem c6_error_classification_witness :
    get_transit_plan_for_timestamp [] []
      ⟨"ZERO_RESULTS", some ["DRIVING"], none, []⟩
      = .errNoTransit "ZERO_RESULTS" :=
  (c6_error_classification [] [] ⟨"ZERO_RESULTS", some ["DRIVING"], none, []⟩).1.mpr
    ⟨by decide, ["DRIVING"], rfl, by decide⟩

/-- Counter bookkeeping of the loop: at any point of a run, the final
cumulative counter equals its starting value plus the number of maximal
no-transit streaks among the queries the run issues, where the starting
`failed` value records whether the run begins inside a streak
(timetables.py lines 326, 336-342). -/
theorem runLoop_totalErr_streaks (query : Int → FetchResult) (e : Int) :
    ∀ (fuel : Nat) (c : Int) (failed te : Nat) (acc : List (List Step)),
      (runLoop query e fuel c failed te acc).totalErr
        = te + countStreaksFrom (decide (failed ≠ 0))
            ((runLoop query e fuel c failed te acc).queries.map query) := by
  intro fuel
  induction fuel with
  | zero =>
    intro c failed te acc
    simp [runLoop, countStreaksFrom]
  | succ fuel ih =>
    intro c failed te acc
    rw [runLoop]
    cases hq : query (c + 1) with
    | errGeneric s m =>
      simp [countStreaksFrom, isNoTransit, hq]
    | errNoTransit s =>
      by_cases hend : c + 1 + 300 * ((failed : Int) + 1) + 1 > e
      · simp only [if_pos hend]
        by_cases hf : failed = 0 <;>
          by_cases hacc : acc = [] <;>
            simp [hf, hacc, countStreaksFrom, isNoTransit, hq]
      · simp only [if_neg hend]
        have hrec := ih (c + 1 + 300 * ((failed : Int) + 1)) (failed + 1)
          (if failed = 0 then te + 1 else te) acc
        by_cases hf : failed = 0 <;>
          simp_all [countStreaksFrom, isNoTransit, hq] <;> omega
    | ok steps =>
      cases hh : steps.head? with
      | none => simp [hh, countStreaksFrom, isNoTransit, hq]
      | some s0 =>
        simp only [hh]
        by_cases hend : s0.departure_time_epoch + 1 > e
        · simp only [if_pos hend]
          by_cases hacc : acc = [] <;>
            simp [hacc, countStreaksFrom, isNoTransit, hq]
        · simp only [if_neg hend]
          have hrec := ih s0.departure_time_epoch 0 te (acc ++ [steps])
          simp_all [countStreaksFrom, isNoTransit, hq]

/-- Claim C3: over a whole-day run started with both counters at zero, the
final cumulative-failure counter equals the number of maximal streaks of
consecutive transient no-transit failures among the issued queries — not the
number of individual failed attempts — because it is incremented only when a
transient failure hits while the consecutive counter is zero, and the
consecutive counter is reset on every success; moreover the cumulative
counter never decreases from its starting value, whatever the starting
state (timetables.py lines 326, 336-342). -/
theorem c3_failure_counters (query : Int → FetchResult) (e : Int) (fuel : Nat) (c : Int) :
    (runLoop query e fuel c 0 0 []).totalErr
      = countStreaks ((runLoop query e fuel c 0 0 []).queries.map query)
    ∧ ∀ (failed te : Nat) (acc : List (List Step)),
        te ≤ (runLoop query e fuel c failed te acc).totalErr := by
  constructor
  · have h := runLoop_totalErr_streaks query e fuel c 0 0 []
    simpa [countStreaks] using h
  · intro failed te acc
    rw [runLoop_totalErr_streaks]
    omega

/-- The first-step departure epoch of an itinerary whose head is known. -/
theorem firstDep_of_head (steps : List Step) (s0 : Step) (h : steps.head? = some s0) :
    firstDep steps = s0.departure_time_epoch := by
  simp [firstDep, h]

/-- The loop never accumulates an itinerary whose first-step departure epoch
reaches the end of the day: itineraries already accumulated satisfying the
bound, every appended itinerary does too, because the append happens only
after the termination check on the freshly set cursor passes
(timetables.py lines 352-374). -/
theorem runLoop_results_window (query : Int → FetchResult) (e : Int) :
    ∀ (fuel : Nat) (c : Int) (failed te : Nat) (acc : List (List Step)),
      (∀ it ∈ acc, firstDep it + 1 ≤ e) →
      ∀ it ∈ (runLoop query e fuel c failed te acc).results, firstDep it + 1 ≤ e := by
  intro fuel
  induction fuel with
  | zero =>
    intro c failed te acc hacc
    simpa [runLoop] using hacc
  | succ fuel ih =>
    intro c failed te acc hacc
    rw [runLoop]
    cases hq : query (c + 1) with
    | errGeneric s m => simpa using hacc
    | errNoTransit s =>
      by_cases hend : c + 1 + 300 * ((failed : Int) + 1) + 1 > e
      · simp only [if_pos hend]
        by_cases hb : acc = [] <;> simpa [hb] using hacc
      · simp only [if_neg hend]
        exact ih _ _ _ acc hacc
    | ok steps =>
      cases hh : steps.head? with
      | none => simpa [hh] using hacc
      | some s0 =>
        simp only [hh]
        by_cases hend : s0.departure_time_epoch + 1 > e
        · simp only [if_pos hend]
          by_cases hb : acc = [] <;> simpa [hb] using hacc
        · simp only [if_neg hend]
          refine ih _ _ _ (acc ++ [steps]) ?_
          intro it hit
          rcases List.mem_append.mp hit with h | h
          · exact hacc it h
          · have hsteps : it = steps := by simpa using h
            rw [hsteps, firstDep_of_head steps s0 hh]
            omega

/-- Claim C10: every itinerary in the loop's accumulated result list has a
first-step departure epoch `d` with `d + 1 <= end_of_day`; a successfully
fetched itinerary whose departure epoch is at or past the end of the window
triggers termination before the append and leaves the accumulated list
unchanged (timetables.py lines 352-374). -/
theorem c10_appended_before_window_end (query : Int → FetchResult) (e : Int)
    (fuel : Nat) (c : Int) (failed te : Nat)
    (query2 : Int → FetchResult) (e2 : Int) (fuel2 : Nat) (c2 : Int)
    (failed2 te2 : Nat) (acc2 : List (List Step)) (steps : List Step) (s0 : Step)
    (hq : query2 (c2 + 1) = .ok steps) (hh : steps.head? = some s0)
    (hout : e2 < s0.departure_time_epoch + 1) :
    (∀ it ∈ (runLoop query e fuel c failed te []).results, firstDep it + 1 ≤ e)
    ∧ (runLoop query2 e2 (fuel2 + 1) c2 failed2 te2 acc2).results = acc2 := by
  constructor
  · exact runLoop_results_window query e fuel c failed te [] (by simp)
  · rw [runLoop, hq]
    simp only [hh, if_pos hout]
    by_cases hb : acc2 = [] <;> simp [hb]

/-- Witness for C10 against the concrete collaborator `c10q`: the run from
cursor 0 accumulates the itinerary departing at epoch 100, which satisfies
the window bound, and a run whose next fetch departs at epoch 90000 (past
end of day 86400) terminates without appending it. -/
theorem c10_appended_before_window_end_witness :
    firstDep [mkStep 100] + 1 ≤ 86400
    ∧ (runLoop c10q 86400 3 200 0 0 [[mkStep 100]]).results = [[mkStep 100]] := by
  have h := c10_appended_before_window_end c10q 86400 3 0 0 0
    c10q 86400 2 200 0 0 [[mkStep 100]] [mkStep 90000] (mkStep 90000)
    (by decide) rfl (by decide)
  exact ⟨h.1 [mkStep 100] (by decide), h.2⟩

/-- A failing reverse-geocoding lookup fails with the geocoding error or the
missing-data error, never with a loop-level failure. -/
theorem lookupLocality_error (geocode : String → GeoResponse) (loc : String)
    (err : DayError) (h : lookupLocality geocode loc = .error err) :
    err = .geocoding ∨ err = .dataMissing := by
  rw [lookupLocality] at h
  split at h
  · cases err <;> simp_all
  · split at h
    · cases err <;> simp_all
    · split at h
      · cases err <;> simp_all
      · simp_all

/-- A failing lookup-table build fails with the geocoding error or the
missing-data error. -/
theorem buildLookup_error (geocode : String → GeoResponse) :
    ∀ (locs : List String) (err : DayError),
      buildLookup geocode locs = .error err →
      err = .geocoding ∨ err = .dataMissing := by
  intro locs
  induction locs with
  | nil =>
    intro err h
    simp [buildLookup] at h
  | cons loc rest ih =>
    intro err h
    rw [buildLookup] at h
    split at h
    · next e2 heq =>
      injection h with h2
      rw [← h2]
      exact lookupLocality_error geocode loc e2 heq
    · next name heq =>
      split at h
      · next e2 heq2 =>
        injection h with h2
        rw [← h2]
        exact ih e2 heq2
      · simp_all

/-- A failing locality-annotation phase fails with the geocoding error or
the missing-data error, never with one of the loop-level errors. -/
theorem annotateLocalities_error (geocode : String → GeoResponse)
    (its : List (List Step)) (err : DayError)
    (h : annotateLocalities geocode its = .error err) :
    err = .geocoding ∨ err = .dataMissing := by
  rw [annotateLocalities] at h
  split at h
  · next e2 heq =>
    injection h with h2
    rw [← h2]
    exact buildLookup_error geocode (collectLocations its) e2 heq
  · simp_all

/-- The loop ends with the no-directions status exactly when nothing was
accumulated: that status implies an empty result list, and the finished
status implies a non-empty one (timetables.py lines 361-374). -/
theorem runLoop_status_results (query : Int → FetchResult) (e : Int) :
    ∀ (fuel : Nat) (c : Int) (failed te : Nat) (acc : List (List Step)),
      ((runLoop query e fuel c failed te acc).status = .noDirections →
        (runLoop query e fuel c failed te acc).results = [])
      ∧ ((runLoop query e fuel c failed te acc).status = .finished →
        (runLoop query e fuel c failed te acc).results ≠ []) := by
  intro fuel
  induction fuel with
  | zero =>
    intro c failed te acc
    constructor <;> intro h <;> simp [runLoop] at h ⊢
  | succ fuel ih =>
    intro c failed te acc
    rw [runLoop]
    cases hq : query (c + 1) with
    | errGeneric s m => constructor <;> intro h <;> simp at h
    | errNoTransit s =>
      by_cases hend : c + 1 + 300 * ((failed : Int) + 1) + 1 > e
      · simp only [if_pos hend]
        by_cases hb : acc = [] <;> simp [hb]
      · simp only [if_neg hend]
        exact ih _ _ _ acc
    | ok steps =>
      cases hh : steps.head? with
      | none => simp [hh]
      | some s0 =>
        simp only [hh]
        by_cases hend : s0.departure_time_epoch + 1 > e
        · simp only [if_pos hend]
          by_cases hb : acc = [] <;> simp [hb]
        · simp only [if_neg hend]
          exact ih _ _ _ (acc ++ [steps])

/-- Claim C5: `get_transit_plans_for_day` signals the "no directions found"
failure exactly when the enumeration loop terminates with zero accumulated
itineraries, and the distinct "no eligible routes" failure exactly when the
loop finished with itineraries but none survives the transfer filter; both
failures carry no partial result (timetables.py lines 361-364, 376-381). -/
theorem c5_distinct_empty_failures (query : Int → FetchResult)
    (geocode : String → GeoResponse) (offset : Int) (date : CivilDate)
    (max_transfers : Int) (get_station_localities : Bool) (fuel : Nat) :
    (get_transit_plans_for_day query geocode offset date max_transfers
        get_station_localities fuel = .error .noDirectionsFound
      ↔ (runLoop query (dayWindow date offset).2 fuel
          (dayWindow date offset).1 0 0 []).status = .noDirections)
    ∧ ((runLoop query (dayWindow date offset).2 fuel
          (dayWindow date offset).1 0 0 []).status = .noDirections
        → (runLoop query (dayWindow date offset).2 fuel
            (dayWindow date offset).1 0 0 []).results = [])
    ∧ ((runLoop query (dayWindow date offset).2 fuel
          (dayWindow date offset).1 0 0 []).status = .finished
        → (runLoop query (dayWindow date offset).2 fuel
            (dayWindow date offset).1 0 0 []).results ≠ [])
    ∧ (get_transit_plans_for_day query geocode offset date max_transfers
        get_station_localities fuel = .error .noEligibleRoutes
      ↔ (runLoop query (dayWindow date offset).2 fuel
          (dayWindow date offset).1 0 0 []).status = .finished
        ∧ transferFilter max_transfers (runLoop query (dayWindow date offset).2 fuel
            (dayWindow date offset).1 0 0 []).results = []) := by
  have hsr := runLoop_status_results query (dayWindow date offset).2 fuel
    (dayWindow date offset).1 0 0 []
  refine ⟨?_, hsr.1, hsr.2, ?_⟩
  · rw [get_transit_plans_for_day]
    cases hs : (runLoop query (dayWindow date offset).2 fuel
        (dayWindow date offset).1 0 0 []).status <;> simp only [hs] <;> simp
    by_cases hf : transferFilter max_transfers (runLoop query (dayWindow date offset).2 fuel
        (dayWindow date offset).1 0 0 []).results = []
    · simp [hf]
    · simp only [if_neg hf]
      cases hgl : get_station_localities with
      | false => simp
      | true =>
        simp only [if_pos rfl]
        cases ha : annotateLocalities geocode (transferFilter max_transfers
            (runLoop query (dayWindow date offset).2 fuel
              (dayWindow date offset).1 0 0 []).results) with
        | error err =>
          rcases annotateLocalities_error _ _ _ ha with h | h <;> simp [h]
        | ok l => simp
  · rw [get_transit_plans_for_day]
    cases hs : (runLoop query (dayWindow date offset).2 fuel
        (dayWindow date offset).1 0 0 []).status <;> simp only [hs] <;> simp
    constructor
    · intro himp
      by_contra hne
      have hcontra := himp hne
      exfalso
      cases hgl : get_station_localities with
      | false =>
        rw [hgl] at hcontra
        simp at hcontra
      | true =>
        rw [hgl] at hcontra
        simp at hcontra
        cases ha : annotateLocalities geocode (transferFilter max_transfers
            (runLoop query (dayWindow date offset).2 fuel
              (dayWindow date offset).1 0 0 []).results) with
        | error err =>
          rw [ha] at hcontra
          rcases annotateLocalities_error _ _ _ ha with h | h <;> simp [h] at hcontra
        | ok l =>
          rw [ha] at hcontra
          simp at hcontra
    · intro h hne
      exact absurd h hne

/-- In a timetable sorted by strictly increasing first-step departure, if the
earliest itinerary departing at or after `c + 1` departs before `e`, then the
itineraries inside the window `(c, e)` are exactly that itinerary followed by
the itineraries inside the window that opens at its departure. -/
theorem filter_window_split (c e : Int) :
    ∀ (its : List (List Step)),
      its.Pairwise (fun a b => firstDep a < firstDep b) →
      ∀ it0, its.find? (fun it => decide (c + 1 ≤ firstDep it)) = some it0 →
      firstDep it0 < e →
      its.filter (inWindow c e) = it0 :: its.filter (inWindow (firstDep it0) e) := by
  intro its
  induction its with
  | nil =>
    intro _ it0 hfind _
    simp at hfind
  | cons x xs ih =>
    intro hpw it0 hfind hlt
    rw [List.pairwise_cons] at hpw
    obtain ⟨hx, hxs⟩ := hpw
    by_cases hpx : c + 1 ≤ firstDep x
    · have hfx : (x :: xs).find? (fun it => decide (c + 1 ≤ firstDep it)) = some x :=
        List.find?_cons_of_pos xs (by simpa using hpx)
      rw [hfx] at hfind
      injection hfind with h0
      subst h0
      have h1 : inWindow c e x = true := by
        simp only [inWindow, Bool.and_eq_true, decide_eq_true_eq]
        exact ⟨by omega, hlt⟩
      have h2 : inWindow (firstDep x) e x = false := by
        simp [inWindow]
      rw [List.filter_cons, List.filter_cons, if_pos (by simp [h1]), if_neg (by simp [h2])]
      congr 1
      apply List.filter_congr
      intro y hy
      have hxy := hx y hy
      simp [inWindow, hxy, show c < firstDep y by omega]
    · have hfx : (x :: xs).find? (fun it => decide (c + 1 ≤ firstDep it))
          = xs.find? (fun it => decide (c + 1 ≤ firstDep it)) :=
        List.find?_cons_of_neg xs (by simpa using hpx)
      rw [hfx] at hfind
      have hmem := List.mem_of_find?_eq_some hfind
      have hxit0 := hx it0 hmem
      have h1 : inWindow c e x = false := by
        simp [inWindow, show ¬ (c < firstDep x) by omega]
      have h2 : inWindow (firstDep it0) e x = false := by
        simp [inWindow, show ¬ (firstDep it0 < firstDep x) by omega]
      rw [List.filter_cons, List.filter_cons, if_neg (by simp [h1]), if_neg (by simp [h2])]
      exact ih hxs it0 hfind hlt

/-- In a sorted timetable, if the earliest itinerary departing at or after
`c + 1` already departs at or past `e`, no itinerary lies in the window
`(c, e)`. -/
theorem filter_window_nil (c e : Int) :
    ∀ (its : List (List Step)),
      its.Pairwise (fun a b => firstDep a < firstDep b) →
      ∀ it0, its.find? (fun it => decide (c + 1 ≤ firstDep it)) = some it0 →
      e ≤ firstDep it0 →
      its.filter (inWindow c e) = [] := by
  intro its
  induction its with
  | nil =>
    intro _ _ _ _
    simp
  | cons x xs ih =>
    intro hpw it0 hfind hge
    rw [List.pairwise_cons] at hpw
    obtain ⟨hx, hxs⟩ := hpw
    by_cases hpx : c + 1 ≤ firstDep x
    · have hfx : (x :: xs).find? (fun it => decide (c + 1 ≤ firstDep it)) = some x :=
        List.find?_cons_of_pos xs (by simpa using hpx)
      rw [hfx] at hfind
      injection hfind with h0
      subst h0
      have h1 : inWindow c e x = false := by
        simp [inWindow, show ¬ (firstDep x < e) by omega]
      rw [List.filter_cons, if_neg (by simp [h1])]
      refine List.filter_eq_nil_iff.mpr ?_
      intro y hy
      have hxy := hx y hy
      simp [inWindow]
      omega
    · have hfx : (x :: xs).find? (fun it => decide (c + 1 ≤ firstDep it))
          = xs.find? (fun it => decide (c + 1 ≤ firstDep it)) :=
        List.find?_cons_of_neg xs (by simpa using hpx)
      rw [hfx] at hfind
      have h1 : inWindow c e x = false := by
        simp [inWindow, show ¬ (c < firstDep x) by omega]
      rw [List.filter_cons, if_neg (by simp [h1])]
      exact ih hxs it0 hfind hge

/-- Against a mocked next-itinerary collaborator backed by a sorted
timetable of non-empty itineraries that extends to or past the end of the
day, the enumeration loop started at cursor `c` appends exactly the
timetable entries departing strictly inside `(c, e)`, in timetable order,
provided the fuel covers them. -/
theorem runLoop_mock (its : List (List Step))
    (hpw : its.Pairwise (fun a b => firstDep a < firstDep b))
    (hne : ∀ it ∈ its, it ≠ []) (e : Int)
    (hsent : ∃ it ∈ its, e ≤ firstDep it) :
    ∀ (fuel : Nat) (c : Int) (failed te : Nat) (acc : List (List Step)),
      c + 1 ≤ e →
      (its.filter (inWindow c e)).length + 1 ≤ fuel →
      (runLoop (mockQuery its) e fuel c failed te acc).results
        = acc ++ its.filter (inWindow c e) := by
  intro fuel
  induction fuel with
  | zero =>
    intro c failed te acc hce hfuel
    omega
  | succ fuel ih =>
    intro c failed te acc hce hfuel
    obtain ⟨it0, hfind⟩ : ∃ it0,
        its.find? (fun it => decide (c + 1 ≤ firstDep it)) = some it0 := by
      cases hf : its.find? (fun it => decide (c + 1 ≤ firstDep it)) with
      | none =>
        obtain ⟨w, hw, hwe⟩ := hsent
        have hnone := List.find?_eq_none.mp hf w hw
        simp at hnone
        omega
      | some it0 => exact ⟨it0, rfl⟩
    have hmem := List.mem_of_find?_eq_some hfind
    have hp : c + 1 ≤ firstDep it0 := by
      have := List.find?_some hfind
      simpa using this
    have hq : mockQuery its (c + 1) = .ok it0 := by
      simp [mockQuery, hfind]
    obtain ⟨s0, tl, hit0⟩ : ∃ s0 tl, it0 = s0 :: tl := by
      cases hcase : it0 with
      | nil => exact absurd hcase (hne it0 hmem)
      | cons s0 tl => exact ⟨s0, tl, rfl⟩
    have hhead : it0.head? = some s0 := by
      rw [hit0]
      rfl
    have hdep : firstDep it0 = s0.departure_time_epoch := firstDep_of_head it0 s0 hhead
    rw [runLoop, hq]
    simp only [hhead]
    by_cases hend : s0.departure_time_epoch + 1 > e
    · simp only [if_pos hend]
      have hnil : its.filter (inWindow c e) = [] :=
        filter_window_nil c e its hpw it0 hfind (by omega)
      by_cases hb : acc = [] <;> simp [hb, hnil]
    · simp only [if_neg hend]
      have hsplit : its.filter (inWindow c e)
          = it0 :: its.filter (inWindow (firstDep it0) e) :=
        filter_window_split c e its hpw it0 hfind (by omega)
      have hrec := ih s0.departure_time_epoch 0 te (acc ++ [it0])
        (by omega)
        (by
          have hlen : (its.filter (inWindow c e)).length
              = (its.filter (inWindow s0.departure_time_epoch e)).length + 1 := by
            rw [hsplit, hdep]
            simp
          omega)
      simp only [hrec]
      rw [hsplit, hdep]
      simp

/-- Claim C1: for any date window starting at `start` and any mocked
upstream that returns, for each queried timestamp, the earliest itinerary of
a sorted timetable departing at or after it, the enumeration loop (before
transfer filtering) accumulates exactly the timetable's itineraries
departing strictly within the day window, in strictly increasing order of
first-step departure epoch; and on every successful query the loop
continues with the search cursor set to the returned itinerary's first
step's departure epoch (timetables.py lines 309-374). -/
theorem c1_enumerates_day (its : List (List Step)) (start : Int) (fuel : Nat)
    (hpw : its.Pairwise (fun a b => firstDep a < firstDep b))
    (hne : ∀ it ∈ its, it ≠ [])
    (hsent : ∃ it ∈ its, start + 86400 ≤ firstDep it)
    (hfuel : (its.filter (inWindow start (start + 86400))).length + 1 ≤ fuel)
    (query : Int → FetchResult) (e : Int) (fuel2 : Nat) (c : Int)
    (failed te : Nat) (acc : List (List Step)) (steps : List Step) (s0 : Step)
    (hq : query (c + 1) = .ok steps) (hh : steps.head? = some s0)
    (hin : s0.departure_time_epoch + 1 ≤ e) :
    (runLoop (mockQuery its) (start + 86400) fuel start 0 0 []).results
      = its.filter (inWindow start (start + 86400))
    ∧ (its.filter (inWindow start (start + 86400))).Pairwise
        (fun a b => firstDep a < firstDep b)
    ∧ runLoop query e (fuel2 + 1) c failed te acc
      = ⟨(runLoop query e fuel2 s0.departure_time_epoch 0 te (acc ++ [steps])).status,
         (runLoop query e fuel2 s0.departure_time_epoch 0 te (acc ++ [steps])).results,
         (runLoop query e fuel2 s0.departure_time_epoch 0 te (acc ++ [steps])).totalErr,
         (c + 1) :: (runLoop query e fuel2 s0.departure_time_epoch 0 te (acc ++ [steps])).queries⟩ := by
  refine ⟨?_, ?_, ?_⟩
  · have h := runLoop_mock its hpw hne (start + 86400) hsent fuel start 0 0 []
      (by omega) hfuel
    simpa using h
  · exact hpw.sublist (List.filter_sublist its)
  · rw [runLoop, hq]
    simp only [hh, if_neg (by omega : ¬ (s0.departure_time_epoch + 1 > e))]

/-- Witness for C1 against the concrete timetable `its1` (departures at
epochs 100, 200 and a next-day sentinel at 90000) on the day window
starting at 0: the loop accumulates exactly the two in-window itineraries,
in order. -/
theorem c1_enumerates_day_witness :
    (runLoop (mockQuery its1) 86400 3 0 0 0 []).results
      = its1.filter (inWindow 0 86400) := by
  have h := (c1_enumerates_day its1 0 3 (by decide) (by decide) (by decide) (by decide)
    (mockQuery its1) 86400 2 0 0 0 [] [mkStep 100] (mkStep 100)
    (by decide) rfl (by decide)).1
  simpa using h

/-- The head of a filtered list is the first element satisfying the
predicate. -/
theorem head_filter_of_find {α : Type} (p : α → Bool) :
    ∀ (l : List α) (x : α), l.find? p = some x → (l.filter p).head? = some x := by
  intro l
  induction l with
  | nil =>
    intro x h
    simp at h
  | cons a as ih =>
    intro x h
    by_cases hp : p a = true
    · rw [List.find?_cons_of_pos as hp] at h
      injection h with h0
      subst h0
      rw [List.filter_cons, if_pos hp]
      rfl
    · rw [List.find?_cons_of_neg as hp] at h
      rw [List.filter_cons, if_neg hp]
      exact ih x h

/-- A successful lookup-table build queries exactly the supplied locations,
in order, and stores for each the name its lookup produced. -/
theorem buildLookup_ok (geocode : String → GeoResponse) :
    ∀ (locs : List String) (tbl : List (String × String)),
      buildLookup geocode locs = .ok tbl →
      tbl.map Prod.fst = locs ∧ ∀ p ∈ tbl, lookupLocality geocode p.1 = .ok p.2 := by
  intro locs
  induction locs with
  | nil =>
    intro tbl h
    rw [buildLookup] at h
    injection h with h0
    subst h0
    exact ⟨rfl, by simp⟩
  | cons loc rest ih =>
    intro tbl h
    rw [buildLookup] at h
    split at h
    · simp at h
    · next name heq =>
      split at h
      · simp at h
      · next tbl2 heq2 =>
        injection h with h0
        subst h0
        obtain ⟨ih1, ih2⟩ := ih tbl2 heq2
        refine ⟨by simp [ih1], ?_⟩
        intro p hp
        rcases List.mem_cons.mp hp with h2 | h2
        · subst h2
          simpa using heq
        · exact ih2 p h2

/-- The collected location list contains a coordinate key exactly when some
step of the itinerary list mentions it as its departure or arrival
location. -/
theorem mem_collectLocations (its : List (List Step)) (loc : String) :
    loc ∈ collectLocations its ↔ mentionsLocation its loc := by
  simp only [collectLocations, mentionsLocation, List.mem_dedup, List.mem_append,
    List.mem_flatMap, List.mem_map]
  constructor
  · rintro (⟨it, hit, s, hs, h⟩ | ⟨it, hit, s, hs, h⟩)
    · exact ⟨it, hit, s, hs, Or.inl h⟩
    · exact ⟨it, hit, s, hs, Or.inr h⟩
  · rintro ⟨it, hit, s, hs, h | h⟩
    · exact Or.inl ⟨it, hit, s, hs, h⟩
    · exact Or.inr ⟨it, hit, s, hs, h⟩

/-- A key listed in the table's domain has a successful association-list
lookup. -/
theorem lookupTbl_isSome (tbl : List (String × String)) (k : String)
    (h : k ∈ tbl.map Prod.fst) : (lookupTbl tbl k).isSome := by
  obtain ⟨p, hp, hk⟩ := List.mem_map.mp h
  rw [lookupTbl]
  cases hf : tbl.find? (fun q => q.1 == k) with
  | none =>
    have hnone := List.find?_eq_none.mp hf p hp
    simp [hk] at hnone
  | some q => simp

/-- Counterexample to claim C8 as stated: the code does not prefer a
locality-tagged address component over a postal-town-tagged one — it takes
the first component carrying either tag.  Against a reverse-geocoder whose
components list a postal town first and a locality second, the annotator
attaches the postal town's long name ("Postalville"), not the locality's
long name ("Localville") that the claimed preference would select
(timetables.py lines 409-410). -/
theorem c8_no_locality_preference :
    extractLocality [⟨"Postalville", ["postal_town"]⟩, ⟨"Localville", ["locality"]⟩]
      = some "Postalville"
    ∧ annotateLocalities geoPT [[mkStep 100]]
      = .ok [[{ mkStep 100 with
            departure_locality := some "Postalville"
            arrival_locality := some "Postalville" }]]
    ∧ ("Postalville" : String) ≠ "Localville" :=
  ⟨rfl, rfl, by decide⟩

/-- Claim C8 as amended: when locality annotation is enabled and succeeds,
the annotator queries the reverse geocoder once per distinct coordinate key
occurring as any step's departure or arrival location (the collected list is
duplicate-free and covers exactly the mentioned keys, and the built table
holds one entry per collected key); every step is rewritten in place with
both locality fields attached, steps sharing a coordinate receiving the
name looked up for that one key; and the name extracted from a response is
the long-form name of the first address component tagged as either a
locality or a postal town, in component order, with no preference between
the two tags (timetables.py lines 383-419). -/
theorem c8_locality_annotator (geocode : String → GeoResponse)
    (its annotated : List (List Step))
    (hok : annotateLocalities geocode its = .ok annotated) :
    (collectLocations its).Nodup
    ∧ (∀ loc, loc ∈ collectLocations its ↔ mentionsLocation its loc)
    ∧ (∃ tbl, buildLookup geocode (collectLocations its) = .ok tbl
        ∧ tbl.map Prod.fst = collectLocations its
        ∧ (∀ p ∈ tbl, lookupLocality geocode p.1 = .ok p.2)
        ∧ annotated = its.map (fun x => x.map (annotateStep tbl))
        ∧ ∀ it2 ∈ annotated, ∀ s ∈ it2,
            s.departure_locality.isSome ∧ s.arrival_locality.isSome)
    ∧ (∀ (comps : List GeoComponent) (x : GeoComponent),
        comps.find? matchesLocalityTag = some x →
        extractLocality comps = some x.long_name) := by
  refine ⟨List.nodup_dedup _, mem_collectLocations its, ?_, ?_⟩
  · rw [annotateLocalities] at hok
    split at hok
    · simp at hok
    · next tbl heq =>
      injection hok with h0
      obtain ⟨htbl1, htbl2⟩ := buildLookup_ok geocode (collectLocations its) tbl heq
      refine ⟨tbl, heq, htbl1, htbl2, h0.symm, ?_⟩
      intro it2 hit2 s hs
      rw [← h0] at hit2
      obtain ⟨it, hit, hmap⟩ := List.mem_map.mp hit2
      rw [← hmap] at hs
      obtain ⟨s2, hs2, hsmap⟩ := List.mem_map.mp hs
      rw [← hsmap]
      constructor
      · refine lookupTbl_isSome tbl s2.departure_location ?_
        rw [htbl1, mem_collectLocations]
        exact ⟨it, hit, s2, hs2, Or.inr rfl⟩
      · refine lookupTbl_isSome tbl s2.arrival_location ?_
        rw [htbl1, mem_collectLocations]
        exact ⟨it, hit, s2, hs2, Or.inl rfl⟩
  · intro comps x hfind
    rw [extractLocality, List.head?_map, head_filter_of_find matchesLocalityTag comps x hfind]
    rfl

/-- Witness for the amended C8 against the concrete geocoder `geoOK` on a
one-itinerary input: the annotation succeeds and the collected coordinate
list is duplicate-free. -/
theorem c8_locality_annotator_witness :
    (collectLocations [[mkStep 100]]).Nodup :=
  (c8_locality_annotator geoOK [[mkStep 100]]
    [[{ mkStep 100 with
        departure_locality := some "Town"
        arrival_locality := some "Town" }]] rfl).1
